import Mathlib

/-!
Verification of the ADCS simulation core (enph454-adcs, C++).

The factory (`SensorActuatorFactory.cpp`) and the configuration store
(`ConfigurationSingleton.hpp`) are embedded directly from the source.
The scheduler and the actuator integration step are not among the
provided source files; where a claim needs them they are modelled from
the specification (each such definition says so in its doc comment).

C++ floats are modelled as exact rationals; C++ enums are modelled as
natural numbers with named constants (a C++ enum variable may hold
values outside the declared enumerator list, and a `switch` with no
`default` falls through for such values).
-/

/-- A 3-vector of floats (Eigen::Vector3f). -/
structure Vec3 where
  x : ℚ
  y : ℚ
  z : ℚ
deriving DecidableEq, Repr

/-- C++ `enum class SensorType`, modelled as the underlying integer. -/
abbrev SensorType := Nat

/-- The `SensorType::Accelerometer` enumerator. -/
def SensorType.Accelerometer : SensorType := 0

/-- The `SensorType::Gyroscope` enumerator. -/
def SensorType.Gyroscope : SensorType := 1

/-- C++ `enum class ActuatorType`, modelled as the underlying integer. -/
abbrev ActuatorType := Nat

/-- The `ActuatorType::ReactionWheel` enumerator. -/
def ActuatorType.ReactionWheel : ActuatorType := 0

/-- `struct SensorConfig` from ConfigurationSingleton.hpp:
`pollingTime : int`, a type tag and a position vector. -/
structure SensorConfig where
  pollingTime : Int
  type : SensorType
  position : Vec3
deriving DecidableEq, Repr

/-- `struct ReactionWheelConfig` from ConfigurationSingleton.hpp. -/
structure ReactionWheelConfig where
  momentOfInertia : ℚ
  maxAngVel : ℚ
  maxAngAccel : ℚ
  minAngVel : ℚ
  minAngAccel : ℚ
  pollingTime : ℚ
  position : Vec3
  axisOfRotation : Vec3
  velocity : ℚ
  acceleration : ℚ
deriving DecidableEq, Repr

/-- `struct ActuatorConfig`: the polymorphic base carries the type tag;
`rwConfig` records the dynamic type: it is `some d` exactly when the
stored object is in fact a `ReactionWheelConfig` (so
`dynamic_cast<const ReactionWheelConfig*>` yields `d`), and `none` when
the object is of some other dynamic type (the cast yields null). -/
structure ActuatorConfig where
  type : ActuatorType
  rwConfig : Option ReactionWheelConfig
deriving DecidableEq, Repr

/-- `struct actuator_state` (CommonStructs.hpp, used by the factory):
acceleration, velocity, position and a timestamp. -/
structure ActuatorState where
  acceleration : ℚ
  velocity : ℚ
  position : ℚ
  time : ℚ
deriving DecidableEq, Repr

/-- The concrete sensors built by the factory: `Accelerometer` and
`Gyroscope`, each holding `timestamp(pollingTime)` and the placement. -/
inductive Sensor where
  | accelerometer (pollingTime : ℚ) (position : Vec3)
  | gyroscope (pollingTime : ℚ) (position : Vec3)
deriving DecidableEq, Repr

/-- The concrete actuators built by the factory: `Reaction_wheel`,
holding `timestamp(pollingTime)`, placement, min/max state bounds and
the moment of inertia. -/
inductive Actuator where
  | reactionWheel (pollingTime : ℚ) (position : Vec3)
      (minState maxState : ActuatorState) (momentOfInertia : ℚ)
deriving DecidableEq, Repr

/-- A `std::unordered_map<std::string, std::shared_ptr<Cfg>>`: keys to
possibly-null shared pointers (`none` models a null pointer value). -/
abbrev ConfigMap (Cfg : Type) := List (String × Option Cfg)

/-- `operator[]` on an unordered_map of shared pointers
(`sensorConfigs[name]` in `Configuration::GetSensorConfig`): if the key
is present its value is returned and the map is unchanged; if the key
is absent a default-constructed (null) entry is inserted under the key
and that null value is returned. The result pairs the looked-up value
with the map after the call. -/
def mapIndex {Cfg : Type} (m : ConfigMap Cfg) (k : String) :
    Option Cfg × ConfigMap Cfg :=
  match m.lookup k with
  | some v => (v, m)
  | none => (none, m ++ [(k, none)])

/-- The value a lookup under `name` would produce without the insertion
side effect: `none` when the key is absent or maps to a null pointer. -/
def specLookup {Cfg : Type} (m : ConfigMap Cfg) (k : String) : Option Cfg :=
  (m.lookup k).join

/-- `SensorActuatorFactory::GetSensor`, with the configuration store's
sensor map passed explicitly (the C++ reaches it through the
`Configuration` singleton). Returns the constructed sensor (null
shared pointer modelled as `none`) together with the sensor map after
the call, since `GetSensorConfig` uses `operator[]`. The `switch` on
`sensor->type` has no `default`: a tag matching no case leaves `ret`
null. -/
def GetSensorSt (store : ConfigMap SensorConfig) (name : String) :
    Option Sensor × ConfigMap SensorConfig :=
  (match (mapIndex store name).1 with
   | none => none
   | some sensor =>
     if sensor.type = SensorType.Accelerometer then
       some (.accelerometer (sensor.pollingTime : ℚ) sensor.position)
     else if sensor.type = SensorType.Gyroscope then
       some (.gyroscope (sensor.pollingTime : ℚ) sensor.position)
     else
       none,
   (mapIndex store name).2)

/-- `SensorActuatorFactory::GetActuator`, store passed explicitly as in
`GetSensorSt`. In the `ReactionWheel` arm the C++ dereferences the
`dynamic_cast` result without a null check; a null downcast therefore
dereferences a null pointer, modelled as `Except.error ()`. All defined
outcomes are `Except.ok`. The hard-coded bounds are the source's
literal constants. -/
def GetActuatorSt (store : ConfigMap ActuatorConfig) (name : String) :
    Except Unit (Option Actuator) × ConfigMap ActuatorConfig :=
  (match (mapIndex store name).1 with
   | none => .ok none
   | some actu =>
     if actu.type = ActuatorType.ReactionWheel then
       match actu.rwConfig with
       | none => .error ()
       | some reac =>
         .ok (some (.reactionWheel reac.pollingTime reac.position
           { acceleration := reac.minAngAccel
             velocity := reac.minAngVel
             position := -100000000000000
             time := 0 }
           { acceleration := reac.maxAngAccel
             velocity := reac.maxAngVel
             position := 10000000000
             time := 10000000 }
           reac.momentOfInertia))
     else
       .ok none,
   (mapIndex store name).2)

/-- The value returned by `GetSensor` (the caller's view). -/
def GetSensor (store : ConfigMap SensorConfig) (name : String) :
    Option Sensor :=
  (GetSensorSt store name).1

/-- The value returned by `GetActuator` (the caller's view). -/
def GetActuator (store : ConfigMap ActuatorConfig) (name : String) :
    Except Unit (Option Actuator) :=
  (GetActuatorSt store name).1

/-- Modelled from the spec: clamping a value to a configured `[lo, hi]`
range (§ Glossary "Clamping"); the actuator integration code is not
among the provided source files. -/
def clamp (lo hi x : ℚ) : ℚ := max lo (min hi x)

/-- Modelled from the spec: the actuator integration step of §4.2
(`integrate(at, commandedTorqueOrAccel) → ActuatorState`); the concrete
`Reaction_wheel` source is not among the provided source files.
Step 1 computes Δt and fails when Δt < 0 (modelled as `none`); step 2
clamps the commanded acceleration to the acceleration bounds; step 3
integrates velocity and clamps it to the velocity bounds; step 4
integrates position; step 5 stores the new state with `time = at`. -/
def integrate (bMin bMax : ActuatorState) (st : ActuatorState)
    (t cmd : ℚ) : Option ActuatorState :=
  let dt := t - st.time
  if dt < 0 then none
  else
    let accel := clamp bMin.acceleration bMax.acceleration cmd
    let vel := clamp bMin.velocity bMax.velocity (st.velocity + accel * dt)
    let pos := st.position + vel * dt
    some { acceleration := accel, velocity := vel, position := pos, time := t }

/-- Modelled from the spec: repeated integration under a fixed timestep
`dt` and a sustained commanded input `cmd` (end-to-end scenario 2);
the driver source is not among the provided source files. -/
def iterateIntegrate (bMin bMax : ActuatorState) (dt cmd : ℚ) :
    ActuatorState → Nat → ActuatorState
  | st, 0 => st
  | st, n + 1 =>
    match integrate bMin bMax st (st.time + dt) cmd with
    | none => st
    | some st' => iterateIntegrate bMin bMax dt cmd st' n

/-- Modelled from the spec: the per-device scheduling state (§3
invariants: a device holds a polling interval and its last poll time).
Times are integer milliseconds, the unit and type of the
configuration's `PollingTime`, `TimeStep` and `Timeout` fields. The
scheduler source is not among the provided source files. -/
structure DeviceSched where
  pollingInterval : ℤ
  lastPollTime : ℤ
deriving DecidableEq, Repr

/-- Modelled from the spec: the poll guard of §3 — "A device is polled
only when `ClockState.currentTime − device.lastPollTime ≥
device.pollingInterval`"; the scheduler source is not among the
provided source files. -/
def duePoll (currentTime : ℤ) (d : DeviceSched) : Bool :=
  d.pollingInterval ≤ currentTime - d.lastPollTime

/-- Modelled from the spec: a fixed-timestep run of one device for `n`
ticks (§4.3 fixed mode: `currentTime` advances by exactly the timestep
each tick; the device is sampled when its poll guard holds, which
resets its last poll time). Returns the list of simulation times at
which the device was sampled. The scheduler source is not among the
provided source files. -/
def fixedRunPolls (step : ℤ) (d : DeviceSched) (currentTime : ℤ) :
    Nat → List ℤ
  | 0 => []
  | n + 1 =>
    let t := currentTime + step
    if duePoll t d then
      t :: fixedRunPolls step { d with lastPollTime := t } t n
    else
      fixedRunPolls step d t n

/-- Modelled from the spec: the scheduler's state machine phases of
§4.3 (`{Idle, Running, TimedOut, Stopped}`); the scheduler source is
not among the provided source files. -/
inductive SchedPhase where
  | idle
  | running
  | timedOut
  | stopped
deriving DecidableEq, Repr

/-- Modelled from the spec: the scheduler state (§3 `ClockState` plus
the device list and the run phase); the scheduler source is not among
the provided source files. -/
structure Sched where
  phase : SchedPhase
  currentTime : ℤ
  runStartTime : ℤ
  timeout : ℤ
  devices : List DeviceSched
deriving DecidableEq, Repr

/-- Modelled from the spec: one fixed-mode tick of §4.3. Time advances
only in `running`. The tick advances `currentTime` by the timestep;
when the elapsed run time reaches or exceeds the timeout the phase
becomes `timedOut` and no events are emitted; otherwise every device
whose poll guard holds is sampled (its poll time is emitted as an
event and its last poll time is reset). In every phase other than
`running` the state is unchanged and no events are emitted. The
scheduler source is not among the provided source files. -/
def schedTick (step : ℤ) (s : Sched) : Sched × List ℤ :=
  match s.phase with
  | .running =>
    let t := s.currentTime + step
    if s.timeout ≤ t - s.runStartTime then
      ({ s with phase := .timedOut, currentTime := t }, [])
    else
      let events := (s.devices.filter (fun d => duePoll t d)).map fun _ => t
      let devices' := s.devices.map fun d =>
        if duePoll t d then { d with lastPollTime := t } else d
      ({ s with currentTime := t, devices := devices' }, events)
  | _ => (s, [])

/-- Modelled from the spec: running the scheduler over a Δt sequence,
collecting the emitted event stream (§4.3 determinism requirement).
The scheduler source is not among the provided source files. -/
def schedRun (s : Sched) : List ℤ → Sched × List ℤ
  | [] => (s, [])
  | step :: rest =>
    let r := schedTick step s
    let r' := schedRun r.1 rest
    (r'.1, r.2 ++ r'.2)

/-- Modelled from the spec: a full simulation run — the scheduler is
driven by a Δt sequence while one actuator consumes a command sequence,
integrating at each tick that emits events; the event stream pairs each
event time with the actuator velocity realized there (§2 data flow,
§4.3 determinism requirement). The simulator source is not among the
provided source files. -/
def simRun (bMin bMax : ActuatorState) :
    Sched → ActuatorState → List (ℤ × ℚ) → List (ℤ × ℚ)
  | _, _, [] => []
  | s, a, (step, cmd) :: rest =>
    let r := schedTick step s
    match r.2 with
    | [] => simRun bMin bMax r.1 a rest
    | _ =>
      match integrate bMin bMax a (r.1.currentTime : ℚ) cmd with
      | none => simRun bMin bMax r.1 a rest
      | some a' => (r.1.currentTime, a'.velocity) :: simRun bMin bMax r.1 a' rest

/-- The first component of `mapIndex` is the pure lookup value. -/
theorem mapIndex_fst {Cfg : Type} (m : ConfigMap Cfg) (k : String) :
    (mapIndex m k).1 = specLookup m k := by
  unfold mapIndex specLookup
  cases h : m.lookup k <;> simp [h]

/-- A successful association-list lookup exhibits a member. -/
theorem lookup_mem {Cfg : Type} {m : ConfigMap Cfg} {k : String}
    {v : Option Cfg} (h : m.lookup k = some v) : (k, v) ∈ m := by
  induction m with
  | nil => simp at h
  | cons p rest ih =>
    obtain ⟨k', v'⟩ := p
    rw [List.lookup_cons] at h
    by_cases hk : k = k'
    · subst hk
      simp at h
      simp [h]
    · have : (k == k') = false := beq_false_of_ne hk
      rw [this] at h
      exact List.mem_cons_of_mem _ (ih h)

/-- The configuration stores used by the concrete witnesses below. -/
def gyroCfg : SensorConfig :=
  { pollingTime := 10, type := SensorType.Gyroscope, position := ⟨0, 0, 0⟩ }

/-- An accelerometer spec as loaded from the sample configuration. -/
def accelCfg : SensorConfig :=
  { pollingTime := 10, type := SensorType.Accelerometer, position := ⟨0, 0, 0⟩ }

/-- The reaction wheel spec of the sample configuration
(`simulator.yaml`, `ReactionWheel1`). -/
def rwCfg : ReactionWheelConfig :=
  { momentOfInertia := 1
    maxAngVel := 1000
    maxAngAccel := 1000
    minAngVel := 0
    minAngAccel := 0
    pollingTime := 10
    position := ⟨0, 0, 0⟩
    axisOfRotation := ⟨0, 0, 1⟩
    velocity := 0
    acceleration := 1 }

/-- The stored actuator config carrying `rwCfg`. -/
def rwStoredCfg : ActuatorConfig :=
  { type := ActuatorType.ReactionWheel, rwConfig := some rwCfg }

/-- A sensor config whose tag value (2) is no declared enumerator. -/
def unknownSensorCfg : SensorConfig :=
  { pollingTime := 5, type := 2, position := ⟨0, 0, 0⟩ }

/-- An actuator config whose tag value (1) is no declared enumerator. -/
def unknownActuatorCfg : ActuatorConfig :=
  { type := 1, rwConfig := none }

/-- C1: for every name with no sensor (resp. actuator) spec registered
in the configuration store, `GetSensor` (resp. `GetActuator`) returns
an empty result (null pointer), a normal outcome — for the actuator the
defined (`Except.ok`) branch — and never signals a fatal error. -/
theorem c1_unregistered_name_returns_empty
    (sStore : ConfigMap SensorConfig) (aStore : ConfigMap ActuatorConfig)
    (name : String)
    (hs : specLookup sStore name = none)
    (ha : specLookup aStore name = none) :
    GetSensor sStore name = none ∧
    GetActuator aStore name = Except.ok none := by
  constructor
  · unfold GetSensor GetSensorSt
    rw [mapIndex_fst, hs]
  · unfold GetActuator GetActuatorSt
    rw [mapIndex_fst, ha]

/-- Witness for C1 at the empty stores and the name `"x"`. -/
theorem c1_witness :
    GetSensor [] "x" = none ∧ GetActuator [] "x" = Except.ok none :=
  c1_unregistered_name_returns_empty [] [] "x" rfl rfl

/-- Any successful integration step stores clamped velocity and
acceleration (helper for the clamping invariant). -/
theorem integrate_mem_bounds (bMin bMax st : ActuatorState) (t cmd : ℚ)
    (st' : ActuatorState)
    (hv : bMin.velocity ≤ bMax.velocity)
    (ha : bMin.acceleration ≤ bMax.acceleration)
    (h : integrate bMin bMax st t cmd = some st') :
    bMin.velocity ≤ st'.velocity ∧ st'.velocity ≤ bMax.velocity ∧
    bMin.acceleration ≤ st'.acceleration ∧
    st'.acceleration ≤ bMax.acceleration := by
  simp only [integrate] at h
  split at h
  · exact Option.noConfusion h
  · simp only [Option.some.injEq] at h
    subst h
    refine ⟨?_, ?_, ?_, ?_⟩ <;> simp only [clamp]
    · exact le_max_left _ _
    · exact max_le hv (min_le_left _ _)
    · exact le_max_left _ _
    · exact max_le ha (min_le_left _ _)

/-- The lower bounds the factory builds for the sample reaction wheel
(`MinAngVel = MinAngAccel = 0`), used by end-to-end scenario 2. -/
def scenario2Min : ActuatorState :=
  { acceleration := 0, velocity := 0, position := -100000000000000, time := 0 }

/-- The upper bounds the factory builds for the sample reaction wheel
(`MaxAngVel = MaxAngAccel = 1000`), used by end-to-end scenario 2. -/
def scenario2Max : ActuatorState :=
  { acceleration := 1000, velocity := 1000, position := 10000000000,
    time := 10000000 }

/-- Under a sustained commanded acceleration of 5000 and timestep 1 ms,
the scenario-2 wheel gains exactly 1 unit of velocity per step while
below the 1000 limit (helper for scenario 2). -/
theorem scenario2_velocity_growth (n : Nat) :
    ∀ st : ActuatorState, 0 ≤ st.velocity → st.velocity + n ≤ 1000 →
      (iterateIntegrate scenario2Min scenario2Max (1 / 1000) 5000 st n).velocity
        = st.velocity + n := by
  induction n with
  | zero =>
    intro st h0 h1
    simp [iterateIntegrate]
  | succ n ih =>
    intro st h0 h1
    have hn : (0 : ℚ) ≤ (n : ℚ) := by positivity
    have hcast : ((n + 1 : Nat) : ℚ) = (n : ℚ) + 1 := by push_cast; ring
    have hle1 : st.velocity + 1 ≤ 1000 := by
      rw [hcast] at h1; linarith
    have hstep : integrate scenario2Min scenario2Max st (st.time + 1 / 1000) 5000
        = some { acceleration := 1000, velocity := st.velocity + 1,
                 position := st.position + (st.velocity + 1) * (1 / 1000),
                 time := st.time + 1 / 1000 } := by
      simp only [integrate, scenario2Min, scenario2Max]
      have hdt : st.time + 1 / 1000 - st.time = 1 / 1000 := by ring
      rw [hdt]
      rw [if_neg (by norm_num : ¬ ((1 : ℚ) / 1000 < 0))]
      have hca : clamp (0 : ℚ) 1000 5000 = 1000 := by decide
      rw [hca]
      have hmul : (1000 : ℚ) * (1 / 1000) = 1 := by norm_num
      rw [hmul]
      have hcv : clamp (0 : ℚ) 1000 (st.velocity + 1) = st.velocity + 1 := by
        unfold clamp
        rw [min_eq_right hle1, max_eq_right (by linarith : (0 : ℚ) ≤ st.velocity + 1)]
      rw [hcv]
    rw [iterateIntegrate, hstep]
    rw [ih _ (by linarith : (0 : ℚ) ≤ st.velocity + 1) (by rw [hcast] at h1; linarith)]
    rw [hcast]
    ring

/-- C2: after every successful integration step the stored
`ActuatorState` satisfies `velocity ∈ [velocityBounds.min,
velocityBounds.max]` and `acceleration ∈ [accelerationBounds.min,
accelerationBounds.max]` (given well-formed bounds) — out-of-range
candidates are clamped; and in end-to-end scenario 2 a wheel bounded by
`MaxAngVel = MaxAngAccel = 1000`, commanded 5000 for one second at a
1 ms timestep, ends at velocity exactly 1000, not 5000. -/
theorem c2_integration_clamping :
    (∀ (bMin bMax st : ActuatorState) (t cmd : ℚ) (st' : ActuatorState),
      bMin.velocity ≤ bMax.velocity →
      bMin.acceleration ≤ bMax.acceleration →
      integrate bMin bMax st t cmd = some st' →
      bMin.velocity ≤ st'.velocity ∧ st'.velocity ≤ bMax.velocity ∧
      bMin.acceleration ≤ st'.acceleration ∧
      st'.acceleration ≤ bMax.acceleration) ∧
    (iterateIntegrate scenario2Min scenario2Max (1 / 1000) 5000
      { acceleration := 0, velocity := 0, position := 0, time := 0 }
      1000).velocity = 1000 := by
  constructor
  · intro bMin bMax st t cmd st' hv ha h
    exact integrate_mem_bounds bMin bMax st t cmd st' hv ha h
  · have h := scenario2_velocity_growth 1000
      { acceleration := 0, velocity := 0, position := 0, time := 0 }
      (by norm_num) (by norm_num)
    simpa using h

/-- Witness for C2 at one concrete integration step: bounds
`[0, 1000]`, commanded 5000 over Δt = 1 lands on the clamped state. -/
theorem c2_witness :
    (0 : ℚ) ≤ 1000 ∧ (1000 : ℚ) ≤ 1000 ∧
    (0 : ℚ) ≤ 1000 ∧ (1000 : ℚ) ≤ 1000 :=
  c2_integration_clamping.1
    { acceleration := 0, velocity := 0, position := 0, time := 0 }
    { acceleration := 1000, velocity := 1000, position := 10, time := 10 }
    { acceleration := 0, velocity := 0, position := 0, time := 0 }
    1 5000
    { acceleration := 1000, velocity := 1000, position := 1000, time := 1 }
    (by norm_num) (by norm_num) (by norm_num [integrate, clamp])

/-- Counterexample for C3: calling `GetSensor` on an empty
configuration store with the absent name `"x"` mutates the store —
`GetSensorConfig` reaches the map through `operator[]`, which
default-inserts a null entry under the requested key. -/
theorem c3_counterexample :
    (GetSensorSt [] "x").2 ≠ ([] : ConfigMap SensorConfig) := by
  simp [GetSensorSt, mapIndex]

/-- C3 (amended): when the requested name is a key of the store
(whatever it maps to), `GetSensor`/`GetActuator` leave the store
unchanged; when it is absent, the only mutation is that the store
gains a null entry under the requested name. -/
theorem c3_frame :
    (∀ (store : ConfigMap SensorConfig) (name : String) (v : Option SensorConfig),
      store.lookup name = some v → (GetSensorSt store name).2 = store) ∧
    (∀ (store : ConfigMap SensorConfig) (name : String),
      store.lookup name = none →
      (GetSensorSt store name).2 = store ++ [(name, none)]) ∧
    (∀ (store : ConfigMap ActuatorConfig) (name : String) (v : Option ActuatorConfig),
      store.lookup name = some v → (GetActuatorSt store name).2 = store) ∧
    (∀ (store : ConfigMap ActuatorConfig) (name : String),
      store.lookup name = none →
      (GetActuatorSt store name).2 = store ++ [(name, none)]) := by
  refine ⟨?_, ?_, ?_, ?_⟩
  · intro store name v h
    simp [GetSensorSt, mapIndex, h]
  · intro store name h
    simp [GetSensorSt, mapIndex, h]
  · intro store name v h
    simp [GetActuatorSt, mapIndex, h]
  · intro store name h
    simp [GetActuatorSt, mapIndex, h]

/-- Witness for C3 (amended) at concrete stores: a present name leaves
the store unchanged, an absent name appends exactly one null entry. -/
theorem c3_frame_witness :
    (GetSensorSt [("g", some gyroCfg)] "g").2 = [("g", some gyroCfg)] ∧
    (GetSensorSt [] "x").2 = [] ++ [("x", none)] ∧
    (GetActuatorSt [("rw", some rwStoredCfg)] "rw").2 = [("rw", some rwStoredCfg)] ∧
    (GetActuatorSt [] "x").2 = [] ++ [("x", none)] :=
  ⟨c3_frame.1 [("g", some gyroCfg)] "g" (some gyroCfg) rfl,
   c3_frame.2.1 [] "x" rfl,
   c3_frame.2.2.1 [("rw", some rwStoredCfg)] "rw" (some rwStoredCfg) rfl,
   c3_frame.2.2.2 [] "x" rfl⟩

/-- Counterexample for C4: a stored spec whose type tag matches no case
of the factory's `switch` (tag value 2 for a sensor, 1 for an actuator)
is not treated as a fatal contract violation — the `switch` has no
`default`, falls through, and the factory returns exactly the empty
result the claim says it does not. -/
theorem c4_counterexample :
    GetSensor [("s", some unknownSensorCfg)] "s" = none ∧
    GetActuator [("a", some unknownActuatorCfg)] "a" = Except.ok none := by
  exact ⟨rfl, rfl⟩

/-- C4 (amended): a spec registered under the requested name whose type
tag is none of the factory's recognized device kinds falls through the
dispatch and yields an empty result — the same recoverable outcome as
an unregistered name, not a fatal error. -/
theorem c4_unrecognized_tag_falls_through :
    (∀ (store : ConfigMap SensorConfig) (name : String) (cfg : SensorConfig),
      specLookup store name = some cfg →
      cfg.type ≠ SensorType.Accelerometer →
      cfg.type ≠ SensorType.Gyroscope →
      GetSensor store name = none) ∧
    (∀ (store : ConfigMap ActuatorConfig) (name : String) (cfg : ActuatorConfig),
      specLookup store name = some cfg →
      cfg.type ≠ ActuatorType.ReactionWheel →
      GetActuator store name = Except.ok none) := by
  constructor
  · intro store name cfg h hna hng
    unfold GetSensor GetSensorSt
    rw [mapIndex_fst, h]
    simp [hna, hng]
  · intro store name cfg h hnr
    unfold GetActuator GetActuatorSt
    rw [mapIndex_fst, h]
    simp [hnr]

/-- Witness for C4 (amended) at unrecognized-tag stores that also hold
a recognized entry. -/
theorem c4_witness :
    GetSensor [("g", some gyroCfg), ("s", some unknownSensorCfg)] "s" = none ∧
    GetActuator [("rw", some rwStoredCfg), ("a", some unknownActuatorCfg)] "a"
      = Except.ok none :=
  ⟨c4_unrecognized_tag_falls_through.1 _ "s" unknownSensorCfg rfl
    (by decide) (by decide),
   c4_unrecognized_tag_falls_through.2 _ "a" unknownActuatorCfg rfl (by decide)⟩

/-- C5: for every name registered with a recognized spec, the factory
constructs the concrete device matching the spec's type tag, passing
the spec's polling interval and placement; an actuator additionally
receives bounds whose velocity and acceleration components are the
spec's configured min/max angular velocity and acceleration, sentinel
extreme position bounds, and the time horizon `[0, 10000000]`. -/
theorem c5_recognized_tag_constructs_device :
    (∀ (store : ConfigMap SensorConfig) (name : String) (cfg : SensorConfig),
      specLookup store name = some cfg →
      cfg.type = SensorType.Gyroscope →
      GetSensor store name
        = some (.gyroscope (cfg.pollingTime : ℚ) cfg.position)) ∧
    (∀ (store : ConfigMap SensorConfig) (name : String) (cfg : SensorConfig),
      specLookup store name = some cfg →
      cfg.type = SensorType.Accelerometer →
      GetSensor store name
        = some (.accelerometer (cfg.pollingTime : ℚ) cfg.position)) ∧
    (∀ (store : ConfigMap ActuatorConfig) (name : String)
      (cfg : ActuatorConfig) (reac : ReactionWheelConfig),
      specLookup store name = some cfg →
      cfg.type = ActuatorType.ReactionWheel →
      cfg.rwConfig = some reac →
      GetActuator store name
        = Except.ok (some (.reactionWheel reac.pollingTime reac.position
            { acceleration := reac.minAngAccel, velocity := reac.minAngVel,
              position := -100000000000000, time := 0 }
            { acceleration := reac.maxAngAccel, velocity := reac.maxAngVel,
              position := 10000000000, time := 10000000 }
            reac.momentOfInertia))) := by
  refine ⟨?_, ?_, ?_⟩
  · intro store name cfg h htype
    unfold GetSensor GetSensorSt
    rw [mapIndex_fst, h]
    simp [htype, SensorType.Gyroscope, SensorType.Accelerometer]
  · intro store name cfg h htype
    unfold GetSensor GetSensorSt
    rw [mapIndex_fst, h]
    simp [htype]
  · intro store name cfg reac h htype hrw
    unfold GetActuator GetActuatorSt
    rw [mapIndex_fst, h]
    simp [htype, hrw]

/-- Witness for C5 at concrete one-entry stores holding the sample
gyroscope, accelerometer and reaction wheel specs. -/
theorem c5_witness :
    GetSensor [("g", some gyroCfg)] "g"
      = some (.gyroscope (gyroCfg.pollingTime : ℚ) gyroCfg.position) ∧
    GetSensor [("acc", some accelCfg)] "acc"
      = some (.accelerometer (accelCfg.pollingTime : ℚ) accelCfg.position) ∧
    GetActuator [("rw", some rwStoredCfg)] "rw"
      = Except.ok (some (.reactionWheel rwCfg.pollingTime rwCfg.position
          { acceleration := rwCfg.minAngAccel, velocity := rwCfg.minAngVel,
            position := -100000000000000, time := 0 }
          { acceleration := rwCfg.maxAngAccel, velocity := rwCfg.maxAngVel,
            position := 10000000000, time := 10000000 }
          rwCfg.momentOfInertia)) :=
  ⟨c5_recognized_tag_constructs_device.1 _ "g" gyroCfg rfl rfl,
   c5_recognized_tag_constructs_device.2.1 _ "acc" accelCfg rfl rfl,
   c5_recognized_tag_constructs_device.2.2 _ "rw" rwStoredCfg rwCfg rfl rfl rfl⟩

/-- C6: a device is polled only when `currentTime` minus its last poll
time is at least its polling interval; consequently a gyroscope with
`PollingTime = 10` ms under a fixed 1 ms timestep is sampled exactly at
simulation times 10, 20, 30 ms over the first 30 ticks — never at
times 1 through 9 ms. -/
theorem c6_poll_guard_and_gyro_scenario :
    (∀ (t : ℤ) (d : DeviceSched), duePoll t d = true →
      d.pollingInterval ≤ t - d.lastPollTime) ∧
    fixedRunPolls 1 { pollingInterval := 10, lastPollTime := 0 } 0 30
      = [10, 20, 30] := by
  constructor
  · intro t d h
    unfold duePoll at h
    exact of_decide_eq_true h
  · decide

/-- Witness for C6's guard at the gyroscope's first sample time. -/
theorem c6_witness : (10 : ℤ) ≤ 10 - 0 :=
  c6_poll_guard_and_gyro_scenario.1 10
    { pollingInterval := 10, lastPollTime := 0 } (by decide)

/-- The initial scheduler state of end-to-end scenario 3:
`Timeout = 10` ms, one device, run started at time 0. -/
def scenario3Init : Sched :=
  { phase := .running, currentTime := 0, runStartTime := 0, timeout := 10,
    devices := [{ pollingInterval := 10, lastPollTime := 0 }] }

/-- C7: whenever the scheduler is `running` and the advanced time
reaches or exceeds `runStartTime + timeout`, the tick transitions to
`timedOut` and emits no events; `timedOut` is terminal (further ticks
change nothing and emit nothing) and is a distinct reported outcome;
and in scenario 3 (`Timeout = 10` ms, objective never satisfied) the
run reaches `timedOut` at `currentTime = 10` exactly with an empty
event stream. -/
theorem c7_timeout_terminal :
    (∀ (step : ℤ) (s : Sched), s.phase = .running →
      s.timeout ≤ s.currentTime + step - s.runStartTime →
      (schedTick step s).1.phase = .timedOut ∧ (schedTick step s).2 = []) ∧
    (∀ (step : ℤ) (s : Sched), s.phase = .timedOut →
      schedTick step s = (s, [])) ∧
    schedRun scenario3Init (List.replicate 15 1)
      = ({ scenario3Init with phase := .timedOut, currentTime := 10 }, []) := by
  refine ⟨?_, ?_, ?_⟩
  · intro step s hphase htime
    constructor <;> simp [schedTick, hphase, htime]
  · intro step s hphase
    simp [schedTick, hphase]
  · decide

/-- Witness for C7 at concrete states: the tick from time 9 with
timeout 10 times out, and a tick from a timed-out state is inert. -/
theorem c7_witness :
    ((schedTick 1 { scenario3Init with currentTime := 9 }).1.phase = .timedOut ∧
      (schedTick 1 { scenario3Init with currentTime := 9 }).2 = []) ∧
    schedTick 1 { scenario3Init with phase := .timedOut, currentTime := 10 }
      = ({ scenario3Init with phase := .timedOut, currentTime := 10 }, []) :=
  ⟨c7_timeout_terminal.1 1 { scenario3Init with currentTime := 9 } rfl
    (by decide),
   c7_timeout_terminal.2.1 1
    { scenario3Init with phase := .timedOut, currentTime := 10 } rfl⟩

/-- C8: two simulation runs given equal bounds, equal initial scheduler
and actuator states, and equal (Δt, command) sequences produce
identical event streams — the run is a pure function of those inputs,
with no wall-clock or host-scheduling dependence in the model. -/
theorem c8_determinism :
    ∀ (bMin₁ bMax₁ bMin₂ bMax₂ a₁ a₂ : ActuatorState) (s₁ s₂ : Sched)
      (inputs₁ inputs₂ : List (ℤ × ℚ)),
      bMin₁ = bMin₂ → bMax₁ = bMax₂ → s₁ = s₂ → a₁ = a₂ →
      inputs₁ = inputs₂ →
      simRun bMin₁ bMax₁ s₁ a₁ inputs₁ = simRun bMin₂ bMax₂ s₂ a₂ inputs₂ := by
  intro bMin₁ bMax₁ bMin₂ bMax₂ a₁ a₂ s₁ s₂ inputs₁ inputs₂ h1 h2 h3 h4 h5
  subst h1; subst h2; subst h3; subst h4; subst h5
  rfl

/-- Witness for C8: replaying one concrete run reproduces its stream. -/
theorem c8_witness :
    simRun scenario2Min scenario2Max scenario3Init
      { acceleration := 0, velocity := 0, position := 0, time := 0 } [(1, 5)]
    = simRun scenario2Min scenario2Max scenario3Init
      { acceleration := 0, velocity := 0, position := 0, time := 0 } [(1, 5)] :=
  c8_determinism _ _ _ _ _ _ _ _ _ _ rfl rfl rfl rfl rfl

/-- C9: under the precondition that every config stored with the
`ReactionWheel` tag is in fact a `ReactionWheelConfig` instance (its
downcast succeeds), `GetActuator` never reaches the null-downcast
dereference: every call returns a defined (`Except.ok`) outcome. -/
theorem c9_downcast_safe :
    ∀ (store : ConfigMap ActuatorConfig) (name : String),
      (∀ (k : String) (cfg : ActuatorConfig), (k, some cfg) ∈ store →
        cfg.type = ActuatorType.ReactionWheel → cfg.rwConfig.isSome) →
      ∃ v, GetActuator store name = Except.ok v := by
  intro store name hpre
  simp only [GetActuator, GetActuatorSt]
  cases hm : (mapIndex store name).1 with
  | none => exact ⟨none, rfl⟩
  | some cfg =>
    by_cases htype : cfg.type = ActuatorType.ReactionWheel
    · have hlk : store.lookup name = some (some cfg) := by
        unfold mapIndex at hm
        cases hl : store.lookup name with
        | none => rw [hl] at hm; simp at hm
        | some v => rw [hl] at hm; simp at hm; rw [hm]
      have hmem : (name, some cfg) ∈ store := lookup_mem hlk
      have hsome := hpre name cfg hmem htype
      obtain ⟨reac, hr⟩ := Option.isSome_iff_exists.mp hsome
      refine ⟨some (.reactionWheel reac.pollingTime reac.position
        { acceleration := reac.minAngAccel, velocity := reac.minAngVel,
          position := -100000000000000, time := 0 }
        { acceleration := reac.maxAngAccel, velocity := reac.maxAngVel,
          position := 10000000000, time := 10000000 }
        reac.momentOfInertia), ?_⟩
      simp [htype, hr]
    · exact ⟨none, by simp [htype]⟩

/-- Witness for C9 at a store holding the sample reaction wheel. -/
theorem c9_witness :
    ∃ v, GetActuator [("rw", some rwStoredCfg)] "rw" = Except.ok v :=
  c9_downcast_safe [("rw", some rwStoredCfg)] "rw" (by
    intro k cfg hmem htype
    simp only [List.mem_singleton, Prod.mk.injEq, Option.some.injEq] at hmem
    rw [hmem.2]
    rfl)

/-- C10: every actuator constructed by `GetActuator`, whatever its
spec's values, receives the same hard-coded position bounds
`[-100000000000000, 10000000000]` and time bounds `[0, 10000000]` —
constants independent of the configuration, so every actuator's valid
simulation horizon is capped at time 10000000. -/
theorem c10_hardcoded_bounds :
    ∀ (store : ConfigMap ActuatorConfig) (name : String) (pt : ℚ)
      (pos : Vec3) (mn mx : ActuatorState) (moi : ℚ),
      GetActuator store name
        = Except.ok (some (.reactionWheel pt pos mn mx moi)) →
      mn.position = -100000000000000 ∧ mn.time = 0 ∧
      mx.position = 10000000000 ∧ mx.time = 10000000 := by
  intro store name pt pos mn mx moi h
  simp only [GetActuator, GetActuatorSt] at h
  split at h
  · simp at h
  · split at h
    · split at h
      · simp at h
      · simp only [Except.ok.injEq, Option.some.injEq,
          Actuator.reactionWheel.injEq] at h
        obtain ⟨-, -, hmn, hmx, -⟩ := h
        subst hmn; subst hmx
        exact ⟨rfl, rfl, rfl, rfl⟩
    · simp at h

/-- Witness for C10 at the sample reaction wheel store. -/
theorem c10_witness :
    (-100000000000000 : ℚ) = -100000000000000 ∧ (0 : ℚ) = 0 ∧
    (10000000000 : ℚ) = 10000000000 ∧ (10000000 : ℚ) = 10000000 :=
  c10_hardcoded_bounds [("rw", some rwStoredCfg)] "rw"
    rwCfg.pollingTime rwCfg.position
    { acceleration := 0, velocity := 0, position := -100000000000000, time := 0 }
    { acceleration := 1000, velocity := 1000, position := 10000000000,
      time := 10000000 }
    rwCfg.momentOfInertia rfl
